import Mathlib

/-!
Verification development for the influence-weighted reward settlement engine
of the web3joeypunch question-and-answer forum.

The definitions below are a shallow embedding of the JavaScript source:
  * `getTokenBalance`           — balance.js (`getTokenBalance`)
  * `computeWeight`             — the inline `Math.round((userTokens / 10) * 10) / 10`
                                  of the endorse endpoints in server.js
  * `endorseQuestion`/`endorseAnswer` — POST /api/endorse/question, POST /api/endorse/answer
  * `postQuestion`              — POST /api/questions
  * `settleQuestion`            — the per-question body of `checkExpiredQuestions`
  * `discoverable`              — the discovery query
                                  `deadline <= now AND reward_distributed = 0`
Numbers stored as SQLite REAL are modelled as rationals; DATETIME values
(ISO-8601 strings compared lexicographically, hence chronologically) are
modelled as integers; JavaScript numbers that may be NaN (the result of
`parseInt`) are modelled by `JsNum`.
-/

namespace JoeyPunch

/-- A JavaScript number resulting from `parseInt`: either NaN or an integer. -/
inductive JsNum where
  | nan : JsNum
  | int : Int → JsNum
deriving DecidableEq

/-- JavaScript `x < m` where `x` may be NaN: every comparison with NaN is false. -/
def JsNum.ltInt : JsNum → Int → Bool
  | .nan, _ => false
  | .int n, m => n < m

/-- JavaScript `x > m` where `x` may be NaN: every comparison with NaN is false. -/
def JsNum.gtInt : JsNum → Int → Bool
  | .nan, _ => false
  | .int n, m => m < n

/-- Row of the `users` table (the fields the settlement engine reads). -/
structure User where
  id : Nat
  wallet_address : Option String
deriving DecidableEq

/-- Row of the `questions` table (the fields the settlement engine reads). -/
structure Question where
  id : Nat
  title : String
  content : String
  user_id : Nat
  token_reward : JsNum
  deadline : Int
  influence_points : ℚ
  reward_distributed : Bool
  winning_answer_id : Option Nat
  reward_transfer_hash : Option String
deriving DecidableEq

/-- Row of the `answers` table. -/
structure Answer where
  id : Nat
  question_id : Nat
  user_id : Nat
  content : String
  created_at : Int
  influence_points : ℚ
deriving DecidableEq

/-- Row of the `endorsements` table. -/
structure Endorsement where
  user_id : Nat
  target_type : String
  target_id : Nat
  influence_value : ℚ
deriving DecidableEq

/-- The relevant tables of qa_database.sqlite. -/
structure DB where
  users : List User
  questions : List Question
  answers : List Answer
  endorsements : List Endorsement
deriving DecidableEq

/-- One character of the class `[a-fA-F0-9]` (code-point ranges 0-9, a-f, A-F). -/
def isHexChar (c : Char) : Bool :=
  (48 ≤ c.toNat && c.toNat ≤ 57) || (97 ≤ c.toNat && c.toNat ≤ 102) ||
    (65 ≤ c.toNat && c.toNat ≤ 70)

/-- The regex `/^0x[a-fA-F0-9]{40}$/` used by `getTokenBalance` in balance.js:
the literal prefix `0x` followed by exactly forty hex digits and nothing else. -/
def isValidEthAddress (s : String) : Bool :=
  match s.data with
  | '0' :: 'x' :: rest => rest.length == 40 && rest.all isHexChar
  | _ => false

/-- `getTokenBalance` from balance.js.  A falsy or malformed address returns 0;
an RPC error (`oracle` returning `none`) is caught and also returns 0;
otherwise the parsed on-chain balance is returned.  The external RPC endpoint
is abstracted as `oracle`. -/
def getTokenBalance (oracle : String → Option ℚ) (address : Option String) : ℚ :=
  match address with
  | none => 0
  | some a =>
    if !isValidEthAddress a then 0
    else
      match oracle a with
      | none => 0
      | some b => b

/-- JavaScript `Math.round`: round half toward positive infinity,
`Math.round x = ⌊x + 1/2⌋`. -/
def jsRound (x : ℚ) : Int := Rat.floor (x + 1 / 2)

/-- The inline weight computation of both endorse endpoints in server.js:
`Math.round((userTokens / 10) * 10) / 10`. -/
def computeWeight (balance : ℚ) : ℚ :=
  ((jsRound ((balance / 10) * 10) : ℚ)) / 10

/-- Modelled from the spec: `round(balance / 10, 1 decimal)` — rounding a
rational to one decimal place, used only to compare against `computeWeight`. -/
def roundTo1Spec (x : ℚ) : ℚ := ((jsRound (x * 10) : ℚ)) / 10

lemma jsRound_eq_floor (x : ℚ) : jsRound x = Int.floor (x + 1 / 2) := rfl

lemma jsRound_eq_of_bounds (x : ℚ) (n : ℤ) (h1 : (n : ℚ) ≤ x + 1 / 2)
    (h2 : x + 1 / 2 < n + 1) : jsRound x = n := by
  rw [jsRound_eq_floor]
  exact Int.floor_eq_iff.mpr ⟨h1, h2⟩

lemma computeWeight_eq (b : ℚ) (n : ℤ) (h1 : (n : ℚ) ≤ b / 10 * 10 + 1 / 2)
    (h2 : b / 10 * 10 + 1 / 2 < n + 1) : computeWeight b = (n : ℚ) / 10 := by
  rw [computeWeight, jsRound_eq_of_bounds _ n h1 h2]

example : computeWeight 45 = 9 / 2 := by
  rw [computeWeight_eq 45 45 (by norm_num) (by norm_num)]; norm_num
example : computeWeight 0 = 0 := by
  rw [computeWeight_eq 0 0 (by norm_num) (by norm_num)]; norm_num
example : isValidEthAddress "0xaaaaaaaaaaaaaaaaAAAAAAAAAAAAAAAA01234567" = true := by decide
example : isValidEthAddress "0xaaaaaaaaaaaaaaaaAAAAAAAAAAAAAAAA0123456" = false := by decide
example : getTokenBalance (fun _ => some 45) (some "notanaddress") = 0 := by
  simp [getTokenBalance, isValidEthAddress]

/-- JavaScript truthiness of a nullable string: `null`/`undefined` and the
empty string are falsy. -/
def isFalsyStr : Option String → Bool
  | none => true
  | some s => s.isEmpty

/-- Error responses of the endorse endpoints in server.js. -/
inductive EndorseError where
  | missingTargetId
  | answerNotFound
  | selfEndorsement
  | userNotFound
  | alreadyEndorsed
deriving DecidableEq

/-- The duplicate check of the endorse endpoints:
`SELECT id FROM endorsements WHERE user_id = ? AND target_type = ? AND target_id = ?`. -/
def hasEndorsed (db : DB) (userId : Nat) (ttype : String) (tid : Nat) : Bool :=
  db.endorsements.any fun e =>
    e.user_id == userId && e.target_type == ttype && e.target_id == tid

/-- `UPDATE answers SET influence_points = influence_points + ? WHERE id = ?`. -/
def addAnswerInfluence (answers : List Answer) (aid : Nat) (w : ℚ) : List Answer :=
  answers.map fun a =>
    if a.id == aid then { a with influence_points := a.influence_points + w } else a

/-- `UPDATE questions SET influence_points = influence_points + ? WHERE id = ?`. -/
def addQuestionInfluence (qs : List Question) (qid : Nat) (w : ℚ) : List Question :=
  qs.map fun q =>
    if q.id == qid then { q with influence_points := q.influence_points + w } else q

/-- POST /api/endorse/answer from server.js.  In source order: look up the
answer, reject self-endorsement, look up the endorser and their wallet, read
the external balance, reject a duplicate endorsement, then insert the
endorsement row and increment the answer's influence points.  The pair returned
is (error response if any, resulting database). -/
def endorseAnswer (oracle : String → Option ℚ) (db : DB) (userId answerId : Nat) :
    Option EndorseError × DB :=
  match db.answers.find? (fun a => a.id == answerId) with
  | none => (some .answerNotFound, db)
  | some ans =>
    if ans.user_id == userId then (some .selfEndorsement, db)
    else
      match db.users.find? (fun u => u.id == userId) with
      | none => (some .userNotFound, db)
      | some user =>
        if isFalsyStr user.wallet_address then (some .userNotFound, db)
        else
          let userTokens := getTokenBalance oracle user.wallet_address
          if hasEndorsed db userId "answer" answerId then (some .alreadyEndorsed, db)
          else
            let influenceValue := computeWeight userTokens
            (none,
             { db with
                endorsements :=
                  db.endorsements ++ [⟨userId, "answer", answerId, influenceValue⟩],
                answers := addAnswerInfluence db.answers answerId influenceValue })

/-- POST /api/endorse/question from server.js.  In source order: look up the
endorser and their wallet, read the external balance, reject a duplicate
endorsement, then insert the endorsement row and increment the question's
influence points.  There is no self-endorsement check, no check that the
question exists, and no check of the question's deadline. -/
def endorseQuestion (oracle : String → Option ℚ) (db : DB) (userId questionId : Nat) :
    Option EndorseError × DB :=
  match db.users.find? (fun u => u.id == userId) with
  | none => (some .userNotFound, db)
  | some user =>
    if isFalsyStr user.wallet_address then (some .userNotFound, db)
    else
      let userTokens := getTokenBalance oracle user.wallet_address
      if hasEndorsed db userId "question" questionId then (some .alreadyEndorsed, db)
      else
        let influenceValue := computeWeight userTokens
        (none,
         { db with
            endorsements :=
              db.endorsements ++ [⟨userId, "question", questionId, influenceValue⟩],
            questions := addQuestionInfluence db.questions questionId influenceValue })

/-- Result of `transferRewardToWinner` in serverReward.js: either a confirmed
transaction (hash and block number) or a caught error message. -/
inductive TransferOutcome where
  | ok (txHash : String) (blockNumber : Nat)
  | fail (error : String)
deriving DecidableEq

/-- The success commit of `checkExpiredQuestions` in server.js:
`UPDATE questions SET reward_distributed = 1, winning_answer_id = ?,
reward_transfer_hash = ? WHERE id = ?`.  Note the WHERE clause matches only on
the id: there is no `AND reward_distributed = 0` guard. -/
def commitSuccessfulSettlement (q : Question) (winId : Nat) (tx : String) : Question :=
  { q with reward_distributed := true, winning_answer_id := some winId,
           reward_transfer_hash := some tx }

/-- The discovery query of `checkExpiredQuestions`:
`SELECT ... FROM questions WHERE deadline <= ? AND reward_distributed = 0`. -/
def discoverable (now : Int) (q : Question) : Bool :=
  decide (q.deadline ≤ now) && !q.reward_distributed

/-- The `JOIN users u ON a.user_id = u.id` of the winning-answer query:
each answer is paired with its author's user row; answers whose author is
missing from the users table are dropped by the inner join. -/
def joinAnswerAuthors (users : List User) (answers : List Answer) :
    List (Answer × User) :=
  answers.filterMap fun a =>
    (users.find? (fun u => u.id == a.user_id)).map fun u => (a, u)

/-- One comparison step of `ORDER BY a.influence_points DESC, a.created_at ASC`:
the candidate `x` replaces the current best row exactly when it sorts strictly
earlier (higher influence, or equal influence and earlier creation). -/
def pickBetter (best x : Answer × User) : Answer × User :=
  if best.1.influence_points < x.1.influence_points then x
  else if best.1.influence_points = x.1.influence_points ∧
      x.1.created_at < best.1.created_at then x
  else best

/-- The winning-answer query of `checkExpiredQuestions`:
`SELECT ... ORDER BY a.influence_points DESC, a.created_at ASC LIMIT 1`
over the joined answer/author rows. -/
def selectWinnerRow : List (Answer × User) → Option (Answer × User)
  | [] => none
  | r :: rest => some (rest.foldl pickBetter r)

/-- The observable outcome of processing one expired question inside
`checkExpiredQuestions`: the question row after the tick, whether a reward
transfer was attempted, and the `persistQuestionToRag` invocations (the
Knowledge Fallback Sink) with their arguments. -/
structure SettleResult where
  question : Question
  transferAttempted : Bool
  sinkCalls : List (Question × Option Answer)
deriving DecidableEq

/-- The winner-without-wallet branch of `checkExpiredQuestions`:
`UPDATE questions SET reward_distributed = 1, winning_answer_id = ? WHERE id = ?`
followed by `persistQuestionToRag({...question, winning_answer_id}, winningAnswer)`;
no transfer is attempted. -/
def settleNoWallet (q : Question) (w : Answer) : SettleResult :=
  { question := { q with reward_distributed := true, winning_answer_id := some w.id },
    transferAttempted := false,
    sinkCalls := [({ q with winning_answer_id := some w.id }, some w)] }

/-- The per-question body of `checkExpiredQuestions` in server.js, for one
question already returned by the discovery query.  `transfer` abstracts
`transferRewardToWinner` from serverReward.js (recipient address and reward
amount to outcome). -/
def settleQuestion (users : List User) (answers : List Answer)
    (transfer : String → JsNum → TransferOutcome) (q : Question) : SettleResult :=
  match selectWinnerRow
      (joinAnswerAuthors users (answers.filter (fun a => a.question_id == q.id))) with
  | some (w, u) =>
    match u.wallet_address with
    | some addr =>
      if addr.isEmpty then settleNoWallet q w
      else
        match transfer addr q.token_reward with
        | .ok tx _bn =>
          { question := commitSuccessfulSettlement q w.id tx,
            transferAttempted := true,
            sinkCalls := [({ q with winning_answer_id := some w.id }, some w)] }
        | .fail _e =>
          { question := q, transferAttempted := true, sinkCalls := [] }
    | none => settleNoWallet q w
  | none =>
    { question := { q with reward_distributed := true },
      transferAttempted := false,
      sinkCalls := [(q, none)] }

/-- Error responses of POST /api/questions in server.js. -/
inductive PostQuestionError where
  | missingTitleOrContent
  | invalidTokenReward
  | invalidTimeLimit
  | missingTransferHash
  | noWallet
  | serverError
deriving DecidableEq

/-- The request body of POST /api/questions, with `token_reward` and
`time_limit_minutes` already passed through `parseInt` (hence possibly NaN). -/
structure QuestionRequest where
  title : String
  content : String
  token_reward : JsNum
  time_limit_minutes : JsNum
  transferHash : Option String
deriving DecidableEq

/-- POST /api/questions from server.js: field presence checks, the range checks
`tokenReward < 1 || tokenReward > 10` and `timeLimit < 1 || timeLimit > 10`
(JavaScript comparisons, so NaN passes both), the transfer-hash and wallet
checks, then the INSERT with `deadline = now + timeLimit minutes`.  A NaN time
limit makes `deadline.toISOString()` throw inside the try block, which the
catch turns into a 500 response with no insert. -/
def postQuestion (req : QuestionRequest) (userId : Nat) (wallet : Option String)
    (now : Int) (newId : Nat) : Except PostQuestionError Question :=
  if req.title.isEmpty || req.content.isEmpty then .error .missingTitleOrContent
  else if req.token_reward.ltInt 1 || req.token_reward.gtInt 10 then
    .error .invalidTokenReward
  else if req.time_limit_minutes.ltInt 1 || req.time_limit_minutes.gtInt 10 then
    .error .invalidTimeLimit
  else if isFalsyStr req.transferHash then .error .missingTransferHash
  else if isFalsyStr wallet then .error .noWallet
  else
    match req.time_limit_minutes with
    | .nan => .error .serverError
    | .int t =>
      .ok { id := newId, title := req.title, content := req.content,
            user_id := userId, token_reward := req.token_reward,
            deadline := now + t * 60, influence_points := 0,
            reward_distributed := false, winning_answer_id := none,
            reward_transfer_hash := none }

/-- `w` sorts no later than `x` under
`ORDER BY influence_points DESC, created_at ASC`. -/
def winsOver (w x : Answer) : Prop :=
  x.influence_points < w.influence_points ∨
    (x.influence_points = w.influence_points ∧ w.created_at ≤ x.created_at)

lemma winsOver_refl (a : Answer) : winsOver a a := Or.inr ⟨rfl, le_refl _⟩

lemma winsOver_trans {a b c : Answer} (hab : winsOver a b) (hbc : winsOver b c) :
    winsOver a c := by
  rcases hab with h1 | ⟨h1, h1c⟩ <;> rcases hbc with h2 | ⟨h2, h2c⟩
  · exact Or.inl (lt_trans h2 h1)
  · exact Or.inl (by rw [h2]; exact h1)
  · exact Or.inl (by rw [← h1]; exact h2)
  · exact Or.inr ⟨h2.trans h1, le_trans h1c h2c⟩

lemma pickBetter_eq_or (b x : Answer × User) :
    pickBetter b x = b ∨ pickBetter b x = x := by
  unfold pickBetter
  split_ifs <;> simp

lemma pickBetter_wins_left (b x : Answer × User) :
    winsOver (pickBetter b x).1 b.1 := by
  unfold pickBetter
  split_ifs with h1 h2
  · exact Or.inl h1
  · exact Or.inr ⟨h2.1, le_of_lt h2.2⟩
  · exact winsOver_refl _

lemma pickBetter_wins_right (b x : Answer × User) :
    winsOver (pickBetter b x).1 x.1 := by
  unfold pickBetter
  split_ifs with h1 h2
  · exact winsOver_refl _
  · exact winsOver_refl _
  · rcases lt_or_eq_of_le (le_of_not_lt h1) with hlt | heq
    · exact Or.inl hlt
    · refine Or.inr ⟨heq, ?_⟩
      by_contra hc
      exact h2 ⟨heq.symm, lt_of_not_le hc⟩

lemma foldl_pickBetter_spec (l : List (Answer × User)) :
    ∀ init : Answer × User,
      (l.foldl pickBetter init = init ∨ l.foldl pickBetter init ∈ l) ∧
      winsOver (l.foldl pickBetter init).1 init.1 ∧
      ∀ x ∈ l, winsOver (l.foldl pickBetter init).1 x.1 := by
  induction l with
  | nil =>
    intro init
    exact ⟨Or.inl rfl, winsOver_refl _, by simp⟩
  | cons y t ih =>
    intro init
    have h := ih (pickBetter init y)
    rw [List.foldl_cons]
    refine ⟨?_, ?_, ?_⟩
    · rcases h.1 with h1 | h1
      · rcases pickBetter_eq_or init y with h2 | h2
        · exact Or.inl (h1.trans h2)
        · exact Or.inr (by rw [h1, h2]; exact List.mem_cons_self y t)
      · exact Or.inr (List.mem_cons_of_mem y h1)
    · exact winsOver_trans h.2.1 (pickBetter_wins_left init y)
    · intro x hx
      rcases List.mem_cons.mp hx with hx | hx
      · rw [hx]
        exact winsOver_trans h.2.1 (pickBetter_wins_right init y)
      · exact h.2.2 x hx

lemma selectWinnerRow_spec (rows : List (Answer × User)) (w : Answer × User)
    (h : selectWinnerRow rows = some w) :
    w ∈ rows ∧ ∀ x ∈ rows, winsOver w.1 x.1 := by
  match rows, h with
  | r :: t, h =>
    have hw : t.foldl pickBetter r = w := by
      simpa [selectWinnerRow] using h
    have hs := foldl_pickBetter_spec t r
    rw [hw] at hs
    refine ⟨?_, ?_⟩
    · rcases hs.1 with h1 | h1
      · rw [h1]; exact List.mem_cons_self r t
      · exact List.mem_cons_of_mem r h1
    · intro x hx
      rcases List.mem_cons.mp hx with hx | hx
      · rw [hx]; exact hs.2.1
      · exact hs.2.2 x hx

lemma joinAnswerAuthors_fst {users : List User} {l : List Answer}
    {r : Answer × User} (h : r ∈ joinAnswerAuthors users l) : r.1 ∈ l := by
  rcases List.mem_filterMap.mp h with ⟨a, ha, hfa⟩
  rcases Option.map_eq_some'.mp hfa with ⟨u, _, hr⟩
  rw [← hr]
  exact ha

lemma joinAnswerAuthors_mem {users : List User} {l : List Answer} {a : Answer}
    {u : User} (ha : a ∈ l) (hu : users.find? (fun x => x.id == a.user_id) = some u) :
    (a, u) ∈ joinAnswerAuthors users l :=
  List.mem_filterMap.mpr ⟨a, ha, by rw [hu]; rfl⟩

/-- Question used by the concrete tie-breaking instance. -/
def qTie : Question :=
  { id := 9, title := "t", content := "c", user_id := 1, token_reward := .int 3,
    deadline := 0, influence_points := 0, reward_distributed := false,
    winning_answer_id := none, reward_transfer_hash := none }

/-- Answer A of the spec's tie-breaking example: score 3.0, earliest. -/
def ansA : Answer :=
  { id := 1, question_id := 9, user_id := 11, content := "A", created_at := 10,
    influence_points := 3 }

/-- Answer B of the spec's tie-breaking example: score 3.0, later. -/
def ansB : Answer :=
  { id := 2, question_id := 9, user_id := 12, content := "B", created_at := 20,
    influence_points := 3 }

/-- Answer C of the spec's tie-breaking example: score 2.5. -/
def ansC : Answer :=
  { id := 3, question_id := 9, user_id := 13, content := "C", created_at := 30,
    influence_points := 5 / 2 }

/-- Author of answer A. -/
def uA : User := ⟨11, some "w1"⟩

/-- Author of answer B. -/
def uB : User := ⟨12, some "w2"⟩

/-- Author of answer C. -/
def uC : User := ⟨13, some "w3"⟩

/-- Authors of the example answers. -/
def tieUsers : List User := [uA, uB, uC]

lemma pickAB : pickBetter (ansA, uA) (ansB, uB) = (ansA, uA) := by
  unfold pickBetter
  norm_num [ansA, ansB]

lemma pickAC : pickBetter (ansA, uA) (ansC, uC) = (ansA, uA) := by
  unfold pickBetter
  norm_num [ansA, ansC]

lemma pickBA : pickBetter (ansB, uB) (ansA, uA) = (ansA, uA) := by
  unfold pickBetter
  norm_num [ansA, ansB]

lemma pickBC : pickBetter (ansB, uB) (ansC, uC) = (ansB, uB) := by
  unfold pickBetter
  norm_num [ansB, ansC]

lemma pickCA : pickBetter (ansC, uC) (ansA, uA) = (ansA, uA) := by
  unfold pickBetter
  norm_num [ansA, ansC]

lemma pickCB : pickBetter (ansC, uC) (ansB, uB) = (ansB, uB) := by
  unfold pickBetter
  norm_num [ansB, ansC]

lemma winnerABC : selectWinnerRow (joinAnswerAuthors tieUsers [ansA, ansB, ansC])
    = some (ansA, uA) := by
  have hj : joinAnswerAuthors tieUsers [ansA, ansB, ansC]
      = [(ansA, uA), (ansB, uB), (ansC, uC)] := rfl
  rw [hj]
  simp only [selectWinnerRow, List.foldl_cons, List.foldl_nil]
  rw [pickAB, pickAC]

lemma winnerACB : selectWinnerRow (joinAnswerAuthors tieUsers [ansA, ansC, ansB])
    = some (ansA, uA) := by
  have hj : joinAnswerAuthors tieUsers [ansA, ansC, ansB]
      = [(ansA, uA), (ansC, uC), (ansB, uB)] := rfl
  rw [hj]
  simp only [selectWinnerRow, List.foldl_cons, List.foldl_nil]
  rw [pickAC, pickAB]

lemma winnerBAC : selectWinnerRow (joinAnswerAuthors tieUsers [ansB, ansA, ansC])
    = some (ansA, uA) := by
  have hj : joinAnswerAuthors tieUsers [ansB, ansA, ansC]
      = [(ansB, uB), (ansA, uA), (ansC, uC)] := rfl
  rw [hj]
  simp only [selectWinnerRow, List.foldl_cons, List.foldl_nil]
  rw [pickBA, pickAC]

lemma winnerBCA : selectWinnerRow (joinAnswerAuthors tieUsers [ansB, ansC, ansA])
    = some (ansA, uA) := by
  have hj : joinAnswerAuthors tieUsers [ansB, ansC, ansA]
      = [(ansB, uB), (ansC, uC), (ansA, uA)] := rfl
  rw [hj]
  simp only [selectWinnerRow, List.foldl_cons, List.foldl_nil]
  rw [pickBC, pickBA]

lemma winnerCAB : selectWinnerRow (joinAnswerAuthors tieUsers [ansC, ansA, ansB])
    = some (ansA, uA) := by
  have hj : joinAnswerAuthors tieUsers [ansC, ansA, ansB]
      = [(ansC, uC), (ansA, uA), (ansB, uB)] := rfl
  rw [hj]
  simp only [selectWinnerRow, List.foldl_cons, List.foldl_nil]
  rw [pickCA, pickAB]

lemma winnerCBA : selectWinnerRow (joinAnswerAuthors tieUsers [ansC, ansB, ansA])
    = some (ansA, uA) := by
  have hj : joinAnswerAuthors tieUsers [ansC, ansB, ansA]
      = [(ansC, uC), (ansB, uB), (ansA, uA)] := rfl
  rw [hj]
  simp only [selectWinnerRow, List.foldl_cons, List.foldl_nil]
  rw [pickCB, pickBA]

/-- C3: winner selection is a deterministic pure function of the stored state:
whenever the winning-answer query returns a row `w` for a question, `w` is one
of the question's answers and sorts no later than every answer of the question
(greater influence, or equal influence and no later creation); the query
returns a row whenever the question has answers (whose authors exist); and on
the spec's concrete instance — scores [3.0, 3.0, 2.5] with A the earliest
3.0-score answer — every arrival order of the three answers selects A. -/
theorem winner_selection_deterministic :
    (∀ (users : List User) (answers : List Answer) (q : Question) (w : Answer × User),
      selectWinnerRow (joinAnswerAuthors users
          (answers.filter (fun a => a.question_id == q.id))) = some w →
      w.1 ∈ answers.filter (fun a => a.question_id == q.id) ∧
        ∀ a ∈ answers.filter (fun a => a.question_id == q.id),
          ∀ u, users.find? (fun x => x.id == a.user_id) = some u → winsOver w.1 a) ∧
    (∀ (users : List User) (answers : List Answer) (q : Question) (a : Answer)
      (u : User), a ∈ answers.filter (fun x => x.question_id == q.id) →
      users.find? (fun x => x.id == a.user_id) = some u →
      (selectWinnerRow (joinAnswerAuthors users
          (answers.filter (fun x => x.question_id == q.id)))).isSome) ∧
    ((selectWinnerRow (joinAnswerAuthors tieUsers [ansA, ansB, ansC])).map Prod.fst
        = some ansA ∧
     (selectWinnerRow (joinAnswerAuthors tieUsers [ansA, ansC, ansB])).map Prod.fst
        = some ansA ∧
     (selectWinnerRow (joinAnswerAuthors tieUsers [ansB, ansA, ansC])).map Prod.fst
        = some ansA ∧
     (selectWinnerRow (joinAnswerAuthors tieUsers [ansB, ansC, ansA])).map Prod.fst
        = some ansA ∧
     (selectWinnerRow (joinAnswerAuthors tieUsers [ansC, ansA, ansB])).map Prod.fst
        = some ansA ∧
     (selectWinnerRow (joinAnswerAuthors tieUsers [ansC, ansB, ansA])).map Prod.fst
        = some ansA) := by
  refine ⟨?_, ?_, ?_⟩
  · intro users answers q w hw
    have hs := selectWinnerRow_spec _ _ hw
    refine ⟨joinAnswerAuthors_fst hs.1, ?_⟩
    intro a ha u hu
    exact hs.2 (a, u) (joinAnswerAuthors_mem ha hu)
  · intro users answers q a u ha hu
    have hm := joinAnswerAuthors_mem ha hu
    match hrows : joinAnswerAuthors users
        (answers.filter (fun x => x.question_id == q.id)) with
    | [] => rw [hrows] at hm; exact absurd hm (List.not_mem_nil _)
    | r :: t => simp [selectWinnerRow]
  · refine ⟨?_, ?_, ?_, ?_, ?_, ?_⟩
    · rw [winnerABC]; rfl
    · rw [winnerACB]; rfl
    · rw [winnerBAC]; rfl
    · rw [winnerBCA]; rfl
    · rw [winnerCAB]; rfl
    · rw [winnerCBA]; rfl

/-- Concrete use of `winner_selection_deterministic`: in the spec's
tie-breaking instance, the selected row A is among the question's answers and
beats B and C under the sort order. -/
theorem winner_selection_deterministic_witness :
    ansA ∈ ([ansA, ansB, ansC].filter (fun a => a.question_id == qTie.id)) ∧
      winsOver ansA ansB ∧ winsOver ansA ansC := by
  have hsel : selectWinnerRow (joinAnswerAuthors tieUsers
      ([ansA, ansB, ansC].filter (fun a => a.question_id == qTie.id)))
      = some (ansA, uA) := winnerABC
  have h := winner_selection_deterministic.1 tieUsers [ansA, ansB, ansC] qTie
    (ansA, uA) hsel
  refine ⟨h.1, ?_, ?_⟩
  · exact h.2 ansB (by simp [List.mem_filter, qTie, ansB]) uB rfl
  · exact h.2 ansC (by simp [List.mem_filter, qTie, ansC]) uC rfl

/-- C1: for an expired, unsettled question whose winner has a usable wallet,
a failed reward transfer leaves the question row exactly as it was — settled
stays false, no winner and no receipt are recorded, no sink call is made —
so the discovery query finds the question again on the next tick; in this
branch the settled flag is written only after the transfer reports success. -/
theorem failed_transfer_retried
    (users : List User) (answers : List Answer) (q : Question)
    (transfer : String → JsNum → TransferOutcome) (now : Int)
    (w : Answer) (u : User) (addr e : String)
    (hsel : selectWinnerRow (joinAnswerAuthors users
        (answers.filter (fun a => a.question_id == q.id))) = some (w, u))
    (haddr : u.wallet_address = some addr)
    (hne : addr.isEmpty = false)
    (hfail : transfer addr q.token_reward = .fail e)
    (hdisc : discoverable now q = true) :
    (settleQuestion users answers transfer q).question = q ∧
    (settleQuestion users answers transfer q).question.reward_distributed = false ∧
    (settleQuestion users answers transfer q).question.winning_answer_id
      = q.winning_answer_id ∧
    (settleQuestion users answers transfer q).question.reward_transfer_hash
      = q.reward_transfer_hash ∧
    (settleQuestion users answers transfer q).sinkCalls = [] ∧
    discoverable now (settleQuestion users answers transfer q).question = true := by
  have hq : settleQuestion users answers transfer q =
      { question := q, transferAttempted := true, sinkCalls := [] } := by
    simp only [settleQuestion, hsel, haddr, hne, hfail, Bool.false_eq_true,
      if_false]
  rw [hq]
  have hrd : q.reward_distributed = false := by
    simp only [discoverable, Bool.and_eq_true, Bool.not_eq_true'] at hdisc
    exact hdisc.2
  exact ⟨rfl, hrd, rfl, rfl, rfl, hdisc⟩

/-- Concrete run of `failed_transfer_retried`: a failing transfer on an
expired question leaves the row unchanged and rediscoverable. -/
theorem failed_transfer_retried_witness :
    (settleQuestion tieUsers [ansA] (fun _ _ => .fail "rpc down") qTie).question
      = qTie ∧
    discoverable 100
      (settleQuestion tieUsers [ansA] (fun _ _ => .fail "rpc down") qTie).question
      = true := by
  have h := failed_transfer_retried tieUsers [ansA] qTie
    (fun _ _ => .fail "rpc down") 100 ansA uA "w1" "rpc down" rfl rfl rfl rfl
    (by decide)
  exact ⟨h.1, h.2.2.2.2.2⟩

/-- An already-settled question with a recorded receipt. -/
def qSettled : Question :=
  { id := 7, title := "t7", content := "c7", user_id := 2, token_reward := .int 5,
    deadline := 0, influence_points := 0, reward_distributed := true,
    winning_answer_id := some 3, reward_transfer_hash := some "0xold" }

/-- C2 counterexample: the success commit of `checkExpiredQuestions` is
`UPDATE ... WHERE id = ?` with no `reward_distributed = 0` guard, so it is not
conditional on the settled flag: applied to an already-settled question it
still takes effect and overwrites the recorded transfer receipt, contrary to
the claimed "takes effect only if settled is currently false". -/
theorem settlement_commit_not_conditional :
    qSettled.reward_distributed = true ∧
    commitSuccessfulSettlement qSettled 4 "0xnew" ≠ qSettled ∧
    (commitSuccessfulSettlement qSettled 4 "0xnew").reward_transfer_hash
      = some "0xnew" := by
  refine ⟨rfl, ?_, rfl⟩
  intro h
  have hh := congrArg Question.reward_transfer_hash h
  simp [commitSuccessfulSettlement, qSettled] at hh

/-- C2 amended: the settlement commit is a single unconditional update keyed
only by the question id — it sets the settled flag, the winner, and the
receipt whatever the current settled value is — and the at-most-once property
instead rests on the discovery query: once committed, the question is never
discoverable (hence never settled or paid) again by sequential ticks. -/
theorem settlement_commit_unconditional :
    (∀ (q : Question) (wid : Nat) (tx : String),
      (commitSuccessfulSettlement q wid tx).reward_distributed = true ∧
      (commitSuccessfulSettlement q wid tx).winning_answer_id = some wid ∧
      (commitSuccessfulSettlement q wid tx).reward_transfer_hash = some tx) ∧
    (∀ (now : Int) (q : Question) (wid : Nat) (tx : String),
      discoverable now (commitSuccessfulSettlement q wid tx) = false) := by
  constructor
  · exact fun q wid tx => ⟨rfl, rfl, rfl⟩
  · intro now q wid tx
    simp [discoverable, commitSuccessfulSettlement]

/-- C6: an expired question with zero answers is settled directly — the flag
is set with no winner recorded and no transfer attempted — and the Knowledge
Fallback Sink (`persistQuestionToRag`) is invoked with the question and a null
answer; afterwards the question is no longer discoverable. -/
theorem no_answer_settlement
    (users : List User) (answers : List Answer) (q : Question)
    (transfer : String → JsNum → TransferOutcome) (now : Int)
    (hnoans : answers.filter (fun a => a.question_id == q.id) = [])
    (hwin : q.winning_answer_id = none)
    (_hdl : q.deadline ≤ now) :
    (settleQuestion users answers transfer q).question.reward_distributed = true ∧
    (settleQuestion users answers transfer q).question.winning_answer_id = none ∧
    (settleQuestion users answers transfer q).question.reward_transfer_hash
      = q.reward_transfer_hash ∧
    (settleQuestion users answers transfer q).transferAttempted = false ∧
    (settleQuestion users answers transfer q).sinkCalls = [(q, none)] ∧
    discoverable now (settleQuestion users answers transfer q).question = false := by
  have hq : settleQuestion users answers transfer q =
      { question := { q with reward_distributed := true },
        transferAttempted := false, sinkCalls := [(q, none)] } := by
    unfold settleQuestion
    rw [hnoans]
    rfl
  rw [hq]
  exact ⟨rfl, hwin, rfl, rfl, rfl, by simp [discoverable]⟩

/-- Concrete run of `no_answer_settlement`: an expired answerless question
settles with no winner and one sink call carrying a null answer. -/
theorem no_answer_settlement_witness :
    (settleQuestion tieUsers [] (fun _ _ => .fail "unused") qTie).question.reward_distributed
      = true ∧
    (settleQuestion tieUsers [] (fun _ _ => .fail "unused") qTie).question.winning_answer_id
      = none ∧
    (settleQuestion tieUsers [] (fun _ _ => .fail "unused") qTie).sinkCalls
      = [(qTie, none)] := by
  have h := no_answer_settlement tieUsers [] qTie (fun _ _ => .fail "unused") 100
    rfl rfl (by decide)
  exact ⟨h.1, h.2.1, h.2.2.2.2.1⟩

/-- C7: when the winning answerer has no usable wallet address, settlement
attempts no transfer, marks the question settled with the winner recorded and
no receipt, makes the question undiscoverable (never retried), and still
invokes the Knowledge Fallback Sink with the question and the winning
answer. -/
theorem winner_without_wallet_unclaimable
    (users : List User) (answers : List Answer) (q : Question)
    (transfer : String → JsNum → TransferOutcome) (now : Int)
    (w : Answer) (u : User)
    (hsel : selectWinnerRow (joinAnswerAuthors users
        (answers.filter (fun a => a.question_id == q.id))) = some (w, u))
    (hnw : isFalsyStr u.wallet_address = true)
    (_hdl : q.deadline ≤ now) :
    (settleQuestion users answers transfer q).transferAttempted = false ∧
    (settleQuestion users answers transfer q).question
      = { q with reward_distributed := true, winning_answer_id := some w.id } ∧
    (settleQuestion users answers transfer q).question.reward_transfer_hash
      = q.reward_transfer_hash ∧
    (settleQuestion users answers transfer q).sinkCalls
      = [({ q with winning_answer_id := some w.id }, some w)] ∧
    discoverable now (settleQuestion users answers transfer q).question = false := by
  have hq : settleQuestion users answers transfer q = settleNoWallet q w := by
    rcases hwa : u.wallet_address with _ | s
    · simp only [settleQuestion, hsel, hwa]
    · have hs : s.isEmpty = true := by
        simpa [isFalsyStr, hwa] using hnw
      simp only [settleQuestion, hsel, hwa, hs, if_true]
  rw [hq]
  exact ⟨rfl, rfl, rfl, rfl, by simp [discoverable, settleNoWallet]⟩

/-- A user with no bound wallet address. -/
def uNoW : User := ⟨14, none⟩

/-- An answer to `qTie` authored by the wallet-less user. -/
def ansD : Answer :=
  { id := 4, question_id := 9, user_id := 14, content := "D", created_at := 5,
    influence_points := 1 }

/-- Concrete run of `winner_without_wallet_unclaimable`: a winner without a
wallet yields a settled, receipt-less, undiscoverable question and a sink call
carrying the winning answer. -/
theorem winner_without_wallet_unclaimable_witness :
    (settleQuestion [uNoW] [ansD] (fun _ _ => .fail "unused") qTie).transferAttempted
      = false ∧
    (settleQuestion [uNoW] [ansD] (fun _ _ => .fail "unused") qTie).question
      = { qTie with reward_distributed := true, winning_answer_id := some 4 } ∧
    (settleQuestion [uNoW] [ansD] (fun _ _ => .fail "unused") qTie).sinkCalls
      = [({ qTie with winning_answer_id := some 4 }, some ansD)] := by
  have h := winner_without_wallet_unclaimable [uNoW] [ansD] qTie
    (fun _ _ => .fail "unused") 100 ansD uNoW rfl rfl (by decide)
  exact ⟨h.1, h.2.1, h.2.2.2.1⟩

/-- Two endorsement rows collide on the `UNIQUE(user_id, target_type,
target_id)` key of the endorsements table. -/
def sameTriple (e1 e2 : Endorsement) : Prop :=
  e1.user_id = e2.user_id ∧ e1.target_type = e2.target_type ∧
    e1.target_id = e2.target_id

/-- No two endorsement rows share the unique key. -/
def uniqueEndorsements (l : List Endorsement) : Prop :=
  l.Pairwise fun e1 e2 => ¬ sameTriple e1 e2

lemma uniqueEndorsements_append {l : List Endorsement} {e : Endorsement}
    (hl : uniqueEndorsements l) (hn : ∀ x ∈ l, ¬ sameTriple x e) :
    uniqueEndorsements (l ++ [e]) := by
  unfold uniqueEndorsements at *
  rw [List.pairwise_append]
  refine ⟨hl, List.pairwise_singleton _ _, ?_⟩
  intro a ha b hb
  rcases List.mem_singleton.mp hb with rfl
  exact hn a ha

lemma hasEndorsed_false {db : DB} {u : Nat} {t : String} {i : Nat}
    (h : hasEndorsed db u t i = false) :
    ∀ x ∈ db.endorsements, ¬ sameTriple x ⟨u, t, i, 0⟩ := by
  intro x hx hc
  rcases hc with ⟨h1, h2, h3⟩
  have : hasEndorsed db u t i = true := by
    unfold hasEndorsed
    rw [List.any_eq_true]
    exact ⟨x, hx, by simp [h1, h2, h3]⟩
  rw [h] at this
  exact absurd this (by simp)

lemma endorseAnswer_db_cases (oracle : String → Option ℚ) (db : DB)
    (u aid : Nat) :
    (endorseAnswer oracle db u aid).2 = db ∨
    (hasEndorsed db u "answer" aid = false ∧ ∃ wv,
      (endorseAnswer oracle db u aid).2.endorsements
        = db.endorsements ++ [⟨u, "answer", aid, wv⟩]) := by
  rcases hf : db.answers.find? (fun a => a.id == aid) with _ | ans
  · left; simp [endorseAnswer, hf]
  · by_cases hs : (ans.user_id == u) = true
    · left; simp [endorseAnswer, hf, hs]
    · rcases hu : db.users.find? (fun x => x.id == u) with _ | user
      · left; simp [endorseAnswer, hf, hs, hu]
      · by_cases hw : isFalsyStr user.wallet_address = true
        · left; simp [endorseAnswer, hf, hs, hu, hw]
        · by_cases he : hasEndorsed db u "answer" aid = true
          · left; simp [endorseAnswer, hf, hs, hu, hw, he]
          · right
            refine ⟨by simpa using he,
              computeWeight (getTokenBalance oracle user.wallet_address), ?_⟩
            simp [endorseAnswer, hf, hs, hu, hw, he]

lemma endorseQuestion_db_cases (oracle : String → Option ℚ) (db : DB)
    (u qid : Nat) :
    (endorseQuestion oracle db u qid).2 = db ∨
    (hasEndorsed db u "question" qid = false ∧ ∃ wv,
      (endorseQuestion oracle db u qid).2.endorsements
        = db.endorsements ++ [⟨u, "question", qid, wv⟩]) := by
  rcases hu : db.users.find? (fun x => x.id == u) with _ | user
  · left; simp [endorseQuestion, hu]
  · by_cases hw : isFalsyStr user.wallet_address = true
    · left; simp [endorseQuestion, hu, hw]
    · by_cases he : hasEndorsed db u "question" qid = true
      · left; simp [endorseQuestion, hu, hw, he]
      · right
        refine ⟨by simpa using he,
          computeWeight (getTokenBalance oracle user.wallet_address), ?_⟩
        simp [endorseQuestion, hu, hw, he]

lemma sameTriple_of_key {x : Endorsement} {u : Nat} {t : String} {i : Nat}
    {w1 w2 : ℚ} (h : ¬ sameTriple x ⟨u, t, i, w1⟩) : ¬ sameTriple x ⟨u, t, i, w2⟩ := by
  intro hc
  exact h ⟨hc.1, hc.2.1, hc.2.2⟩

/-- C4: endorsement is at-most-once per (endorser, targetType, targetId)
triple.  Both endorse operations preserve key-uniqueness of the endorsements
table, and a repeat call for an already-endorsed target — with the target and
endorser still in the state that let the first call succeed — returns the
already-endorsed error and leaves the whole database (in particular every
influence score) unchanged. -/
theorem endorsement_at_most_once :
    (∀ (oracle : String → Option ℚ) (db : DB) (u aid : Nat),
      uniqueEndorsements db.endorsements →
      uniqueEndorsements ((endorseAnswer oracle db u aid).2.endorsements)) ∧
    (∀ (oracle : String → Option ℚ) (db : DB) (u qid : Nat),
      uniqueEndorsements db.endorsements →
      uniqueEndorsements ((endorseQuestion oracle db u qid).2.endorsements)) ∧
    (∀ (oracle : String → Option ℚ) (db : DB) (u aid : Nat) (ans : Answer)
      (user : User),
      db.answers.find? (fun a => a.id == aid) = some ans →
      (ans.user_id == u) = false →
      db.users.find? (fun x => x.id == u) = some user →
      isFalsyStr user.wallet_address = false →
      hasEndorsed db u "answer" aid = true →
      endorseAnswer oracle db u aid = (some .alreadyEndorsed, db)) ∧
    (∀ (oracle : String → Option ℚ) (db : DB) (u qid : Nat) (user : User),
      db.users.find? (fun x => x.id == u) = some user →
      isFalsyStr user.wallet_address = false →
      hasEndorsed db u "question" qid = true →
      endorseQuestion oracle db u qid = (some .alreadyEndorsed, db)) := by
  refine ⟨?_, ?_, ?_, ?_⟩
  · intro oracle db u aid hl
    rcases endorseAnswer_db_cases oracle db u aid with h | ⟨hfree, wv, h⟩
    · rw [h]; exact hl
    · rw [h]
      exact uniqueEndorsements_append hl
        (fun x hx => sameTriple_of_key (hasEndorsed_false hfree x hx))
  · intro oracle db u qid hl
    rcases endorseQuestion_db_cases oracle db u qid with h | ⟨hfree, wv, h⟩
    · rw [h]; exact hl
    · rw [h]
      exact uniqueEndorsements_append hl
        (fun x hx => sameTriple_of_key (hasEndorsed_false hfree x hx))
  · intro oracle db u aid ans user hf hs hu hw he
    simp [endorseAnswer, hf, hs, hu, hw, he]
  · intro oracle db u qid user hu hw he
    simp [endorseQuestion, hu, hw, he]

/-- A database in which user 12 already endorsed answer 1. -/
def dbEndorsed : DB :=
  { users := tieUsers, questions := [qTie], answers := [ansA],
    endorsements := [⟨12, "answer", 1, 0⟩] }

/-- Concrete run of `endorsement_at_most_once`: the repeat endorsement of
answer 1 by user 12 fails with the already-endorsed error, changes nothing,
and key-uniqueness of the table is preserved. -/
theorem endorsement_at_most_once_witness :
    endorseAnswer (fun _ => some 45) dbEndorsed 12 1
      = (some .alreadyEndorsed, dbEndorsed) ∧
    uniqueEndorsements ((endorseAnswer (fun _ => some 45) dbEndorsed 12 1).2.endorsements) := by
  constructor
  · exact endorsement_at_most_once.2.2.1 (fun _ => some 45) dbEndorsed 12 1 ansA uB
      rfl rfl rfl rfl rfl
  · exact endorsement_at_most_once.1 (fun _ => some 45) dbEndorsed 12 1
      (by simp [dbEndorsed, uniqueEndorsements])

lemma computeWeight_45 : computeWeight 45 = 9 / 2 := by
  rw [computeWeight_eq 45 45 (by norm_num) (by norm_num)]
  norm_num

lemma computeWeight_zero : computeWeight 0 = 0 := by
  rw [computeWeight_eq 0 0 (by norm_num) (by norm_num)]
  norm_num

lemma computeWeight_nonneg (b : ℚ) (hb : 0 ≤ b) : 0 ≤ computeWeight b := by
  unfold computeWeight
  apply div_nonneg _ (by norm_num)
  rw [jsRound_eq_floor]
  have h0 : (0 : ℤ) ≤ Int.floor (b / 10 * 10 + 1 / 2) := by
    rw [Int.le_floor]
    push_cast
    nlinarith
  exact_mod_cast h0

lemma addAnswerInfluence_zero (l : List Answer) (aid : Nat) :
    addAnswerInfluence l aid 0 = l := by
  unfold addAnswerInfluence
  induction l with
  | nil => rfl
  | cons a t ih =>
    rw [List.map_cons, ih]
    congr 1
    split
    · cases a
      simp
    · rfl

lemma getTokenBalance_invalid (oracle : String → Option ℚ) (a : String)
    (h : isValidEthAddress a = false) : getTokenBalance oracle (some a) = 0 := by
  simp [getTokenBalance, h]

lemma getTokenBalance_down (oracle : String → Option ℚ) (a : String)
    (h : oracle a = none) : getTokenBalance oracle (some a) = 0 := by
  by_cases hv : isValidEthAddress a = true <;> simp [getTokenBalance, hv, h]

/-- C5: the endorsement weight is the endorser's external balance divided by
ten and rounded to one decimal place (the inline expression
`Math.round((userTokens / 10) * 10) / 10` equals `round(balance / 10, 1)`),
is non-negative for non-negative balances, maps balance 45 to 4.5, maps a
malformed address or a failed balance lookup to balance 0, and with balance 0
the endorsement row is still inserted with weight 0 while every answer's
influence points are unchanged. -/
theorem endorsement_weight_rule :
    (∀ b : ℚ, computeWeight b = roundTo1Spec (b / 10)) ∧
    computeWeight 45 = 9 / 2 ∧
    (∀ b : ℚ, 0 ≤ b → 0 ≤ computeWeight b) ∧
    (∀ (oracle : String → Option ℚ) (a : String), isValidEthAddress a = false →
      getTokenBalance oracle (some a) = 0) ∧
    (∀ (oracle : String → Option ℚ) (a : String), oracle a = none →
      getTokenBalance oracle (some a) = 0) ∧
    (∀ (oracle : String → Option ℚ) (db : DB) (u aid : Nat) (ans : Answer)
      (user : User),
      db.answers.find? (fun a => a.id == aid) = some ans →
      (ans.user_id == u) = false →
      db.users.find? (fun x => x.id == u) = some user →
      isFalsyStr user.wallet_address = false →
      hasEndorsed db u "answer" aid = false →
      getTokenBalance oracle user.wallet_address = 0 →
      endorseAnswer oracle db u aid =
        (none, { db with
          endorsements := db.endorsements ++ [⟨u, "answer", aid, 0⟩] })) := by
  refine ⟨fun b => rfl, computeWeight_45, computeWeight_nonneg, ?_, ?_, ?_⟩
  · exact getTokenBalance_invalid
  · exact getTokenBalance_down
  · intro oracle db u aid ans user hf hs hu hw he hbal
    simp only [endorseAnswer, hf, hs, hu, hw, he, hbal, computeWeight_zero,
      Bool.false_eq_true, if_false, addAnswerInfluence_zero]

/-- Answerless copy of the database, before any endorsement. -/
def dbFresh : DB :=
  { users := tieUsers, questions := [qTie], answers := [ansA], endorsements := [] }

/-- Concrete run of `endorsement_weight_rule`: with the external ledger
unreachable, user 12's endorsement of answer 1 is still recorded, with weight
zero and no influence change; and balance 45 gives weight 4.5. -/
theorem endorsement_weight_rule_witness :
    endorseAnswer (fun _ => none) dbFresh 12 1
      = (none, { dbFresh with endorsements := [⟨12, "answer", 1, 0⟩] }) ∧
    computeWeight 45 = 9 / 2 := by
  constructor
  · exact endorsement_weight_rule.2.2.2.2.2 (fun _ => none) dbFresh 12 1 ansA uB
      rfl rfl rfl rfl rfl (by simp [getTokenBalance, uB, isValidEthAddress])
  · exact endorsement_weight_rule.2.1

/-- A well-formed wallet address (0x plus forty hex digits). -/
def wValid : String := "0xaaaaaaaaaaaaaaaaAAAAAAAAAAAAAAAA01234567"

/-- An external ledger that reports balance 45 for every address. -/
def oracle45 : String → Option ℚ := fun _ => some 45

/-- A user with a well-formed wallet address. -/
def uE : User := ⟨21, some wValid⟩

/-- A database holding only the (long-expired) question `qTie` and user
`uE`, with no endorsements yet. -/
def dbExp : DB := { users := [uE], questions := [qTie], answers := [], endorsements := [] }

lemma getTokenBalance_wValid : getTokenBalance oracle45 (some wValid) = 45 := by
  have hv : isValidEthAddress wValid = true := by decide
  simp [getTokenBalance, hv, oracle45]

/-- C8 counterexample: the endorse endpoints never read the clock or the
question's deadline.  `qTie` is expired and unsettled at time 100, yet the
endorsement call succeeds, inserts an endorsement row of weight 4.5, and
raises the question's influence points — so influence can still change after
expiry, contrary to the claim. -/
theorem endorse_after_expiry_recorded :
    discoverable 100 qTie = true ∧
    (endorseQuestion oracle45 dbExp 21 9).1 = none ∧
    (endorseQuestion oracle45 dbExp 21 9).2.endorsements
      = [⟨21, "question", 9, 9 / 2⟩] ∧
    (endorseQuestion oracle45 dbExp 21 9).2.questions
      = [{ qTie with influence_points := 9 / 2 }] := by
  have hfind : dbExp.users.find? (fun x => x.id == 21) = some uE := rfl
  have hwallet : isFalsyStr uE.wallet_address = false := rfl
  have hfree : hasEndorsed dbExp 21 "question" 9 = false := rfl
  have hbal : getTokenBalance oracle45 uE.wallet_address = 45 :=
    getTokenBalance_wValid
  refine ⟨by decide, ?_⟩
  simp only [endorseQuestion, hfind, hwallet, hfree, hbal, computeWeight_45,
    Bool.false_eq_true, if_false]
  refine ⟨trivial, ?_, ?_⟩
  · rfl
  · show addQuestionInfluence dbExp.questions 9 (9 / 2)
      = [{ qTie with influence_points := 9 / 2 }]
    simp only [addQuestionInfluence, dbExp, List.map_cons, List.map_nil]
    norm_num [qTie]

/-- C8 amended: neither endorse endpoint consults the question's deadline; an
endorse call on a target of an expired question behaves exactly as on a live
one — for any state in which the endorser exists with a wallet and has not
endorsed the target yet, the call succeeds, appends the endorsement row, and
increments the target's influence points, regardless of any notion of time.
A question's influence points at settlement time is therefore not guaranteed
to be its final tally. -/
theorem endorse_ignores_deadline (oracle : String → Option ℚ) (db : DB)
    (u qid : Nat) (user : User)
    (huser : db.users.find? (fun x => x.id == u) = some user)
    (hw : isFalsyStr user.wallet_address = false)
    (hprev : hasEndorsed db u "question" qid = false) :
    (endorseQuestion oracle db u qid).1 = none ∧
    (endorseQuestion oracle db u qid).2.endorsements
      = db.endorsements ++ [⟨u, "question", qid,
          computeWeight (getTokenBalance oracle user.wallet_address)⟩] ∧
    (endorseQuestion oracle db u qid).2.questions
      = addQuestionInfluence db.questions qid
          (computeWeight (getTokenBalance oracle user.wallet_address)) := by
  simp only [endorseQuestion, huser, hw, hprev, Bool.false_eq_true, if_false]
  refine ⟨trivial, ?_, ?_⟩ <;>
    first
    | rfl
    | trivial

/-- Concrete run of `endorse_ignores_deadline` on the expired question of
`dbExp`: the endorsement is accepted and recorded. -/
theorem endorse_ignores_deadline_witness :
    (endorseQuestion oracle45 dbExp 21 9).1 = none ∧
    (endorseQuestion oracle45 dbExp 21 9).2.endorsements
      = dbExp.endorsements ++ [⟨21, "question", 9,
          computeWeight (getTokenBalance oracle45 uE.wallet_address)⟩] := by
  have h := endorse_ignores_deadline oracle45 dbExp 21 9 uE rfl rfl rfl
  exact ⟨h.1, h.2.1⟩

/-- A malformed address input. -/
def addrBad : String := "joeypunch"

/-- An external ledger reporting a genuine zero balance everywhere. -/
def oracleZeroBal : String → Option ℚ := fun _ => some 0

/-- An unreachable external ledger (every RPC call errors). -/
def oracleDown : String → Option ℚ := fun _ => none

/-- C9 counterexample: `getTokenBalance` returns a plain number and surfaces
no error value at all.  For the malformed input "joeypunch" it returns 0 —
exactly the value returned for a well-formed address with a genuine zero
balance and for a well-formed address whose RPC lookup fails — so a caller
cannot distinguish an invalid-address failure from a transport failure or
from a successful zero-balance result, contrary to the claimed
distinguishable InvalidAddress error. -/
theorem invalid_address_silently_zero :
    isValidEthAddress addrBad = false ∧
    getTokenBalance oracleZeroBal (some addrBad) = 0 ∧
    isValidEthAddress wValid = true ∧
    getTokenBalance oracleZeroBal (some wValid) = 0 ∧
    getTokenBalance oracleDown (some wValid) = 0 := by
  have hbad : isValidEthAddress addrBad = false := by decide
  have hok : isValidEthAddress wValid = true := by decide
  refine ⟨hbad, ?_, hok, ?_, ?_⟩
  · simp [getTokenBalance, hbad]
  · simp [getTokenBalance, hok, oracleZeroBal]
  · simp [getTokenBalance, hok, oracleDown]

/-- C9 amended: `getTokenBalance` validates the address format but maps every
failure to the ordinary return value 0 — a null address, a malformed address,
and an RPC error all yield 0, indistinguishable from a successful lookup of a
zero balance; only a well-formed address with a successful lookup returns the
ledger's value. -/
theorem balance_failure_returns_zero (oracle : String → Option ℚ) :
    getTokenBalance oracle none = 0 ∧
    (∀ a : String, isValidEthAddress a = false →
      getTokenBalance oracle (some a) = 0) ∧
    (∀ a : String, oracle a = none → getTokenBalance oracle (some a) = 0) ∧
    (∀ (a : String) (b : ℚ), isValidEthAddress a = true → oracle a = some b →
      getTokenBalance oracle (some a) = b) := by
  refine ⟨rfl, fun a h => getTokenBalance_invalid oracle a h,
    fun a h => getTokenBalance_down oracle a h, ?_⟩
  intro a b hv hb
  simp [getTokenBalance, hv, hb]

/-- Concrete run of `balance_failure_returns_zero`: the malformed address and
the RPC failure both return 0; a successful lookup returns the balance. -/
theorem balance_failure_returns_zero_witness :
    getTokenBalance oracle45 (some addrBad) = 0 ∧
    getTokenBalance oracleDown (some wValid) = 0 ∧
    getTokenBalance oracle45 (some wValid) = 45 := by
  refine ⟨(balance_failure_returns_zero oracle45).2.1 addrBad (by decide),
    (balance_failure_returns_zero oracleDown).2.2.1 wValid rfl,
    (balance_failure_returns_zero oracle45).2.2.2 wValid 45 (by decide) rfl⟩

/-- A question-creation request whose `token_reward` failed to parse:
`parseInt` returned NaN. -/
def reqNaN : QuestionRequest :=
  { title := "t", content := "c", token_reward := .nan,
    time_limit_minutes := .int 5, transferHash := some "0xhash" }

/-- The question row created from `reqNaN`. -/
def qNaN : Question :=
  { id := 99, title := "t", content := "c", user_id := 1, token_reward := .nan,
    deadline := 300, influence_points := 0, reward_distributed := false,
    winning_answer_id := none, reward_transfer_hash := none }

/-- C10 counterexample: the range check `tokenReward < 1 || tokenReward > 10`
is a JavaScript comparison, and both comparisons are false for NaN, so a
non-numeric `token_reward` passes validation: the request `reqNaN` creates a
question whose stored reward is NaN — not an integer in 1–10 — contrary to
the claim that every such request is rejected. -/
theorem nan_token_reward_accepted :
    postQuestion reqNaN 1 (some wValid) 0 99 = .ok qNaN ∧
    (∀ n : Int, qNaN.token_reward ≠ .int n) := by
  constructor
  · rfl
  · intro n h
    exact absurd h (by simp [qNaN])

/-- C10 amended: a numeric reward outside 1–10 is always rejected (no question
is created), and a created question stores the parsed reward verbatim, which
for numeric input is an integer in 1–10 — but NaN input (non-numeric
`token_reward`) passes the check unrejected, so a stored reward is either an
integer in 1–10 or NaN. -/
theorem token_reward_range_check :
    (∀ (req : QuestionRequest) (uid : Nat) (wallet : Option String) (now : Int)
      (nid : Nat) (n : Int) (q : Question), req.token_reward = .int n →
      n < 1 ∨ 10 < n → postQuestion req uid wallet now nid ≠ .ok q) ∧
    (∀ (req : QuestionRequest) (uid : Nat) (wallet : Option String) (now : Int)
      (nid : Nat) (q : Question), postQuestion req uid wallet now nid = .ok q →
      q.token_reward = req.token_reward ∧
      (∀ n : Int, req.token_reward = .int n → 1 ≤ n ∧ n ≤ 10)) := by
  constructor
  · intro req uid wallet now nid n q hn hout hok
    have hcheck : (req.token_reward.ltInt 1 || req.token_reward.gtInt 10) = true := by
      rcases hout with h | h <;> simp [hn, JsNum.ltInt, JsNum.gtInt, h]
    unfold postQuestion at hok
    split_ifs at hok
  · intro req uid wallet now nid q hok
    unfold postQuestion at hok
    split_ifs at hok with h1 h2 h3 h4 h5
    rcases ht : req.time_limit_minutes with _ | t
    · rw [ht] at hok; exact absurd hok (by simp)
    · rw [ht] at hok
      have hq : q.token_reward = req.token_reward := by
        have := congrArg (fun r => match r with
          | Except.ok (x : Question) => x.token_reward
          | Except.error _ => req.token_reward) hok
        simpa using this.symm
      refine ⟨hq, ?_⟩
      intro n hn
      rw [hn] at h2
      simp only [JsNum.ltInt, JsNum.gtInt, Bool.or_eq_true, decide_eq_true_eq] at h2
      push_neg at h2
      omega

/-- Concrete runs of `token_reward_range_check`: reward 11 is rejected for any
created question, and the question created with reward 5 stores 5 ∈ [1,10]. -/
theorem token_reward_range_check_witness :
    postQuestion { reqNaN with token_reward := .int 11 } 1 (some wValid) 0 99
      ≠ .ok qNaN ∧
    ((1 : Int) ≤ 5 ∧ (5 : Int) ≤ 10) := by
  constructor
  · exact token_reward_range_check.1 { reqNaN with token_reward := .int 11 }
      1 (some wValid) 0 99 11 qNaN rfl (by norm_num)
  · exact (token_reward_range_check.2 { reqNaN with token_reward := .int 5 }
      1 (some wValid) 0 99 { qNaN with token_reward := .int 5 } rfl).2 5 rfl

end JoeyPunch
